import Mathlib

/-!
# Verification of the rwa-payment worker

Shallow embedding of the two variants of the payment worker found in the
repository:

* `src/src/index.ts` — the *direct mode* worker: converts a requested
  pegged value into ALX using only the PancakeSwap pair reserve ratio.
* `src/unnamed/part_000` — the *oracle-adjusted mode* worker: first
  converts the pegged (CNY) value into USDT through a Chainlink rate
  (8-decimal scale), then applies the reserve-ratio conversion.

Modelling conventions:

* JavaScript `BigInt` arithmetic is embedded as `ℤ`; `BigInt` division
  truncates toward zero, which is `Int.tdiv` (never Lean's `/`, which
  rounds toward −∞ on `ℤ`).  `BigInt` division by zero throws, so the
  embedding guards every division whose divisor comes from data and routes
  the zero case to the error path, exactly as the thrown `RangeError`
  would be caught by the handler's `try`/`catch`.
* JavaScript numbers appearing in the request body are embedded as exact
  fractions (`Frac`, an unnormalized `ℤ × ℤ` pair with positive
  denominator).  The model covers bodies whose numeric fields denote
  values exactly representable as IEEE-754 binary64 doubles in the normal
  range with a decimal rendering of at most 18 fractional digits (all
  inputs exercised by the specification are small decimals of this kind).
* The one floating-point computation in the source —
  `BigInt(Math.floor((1 + offsetPercent / 100) * 10000))` — is embedded
  exactly: `fp64F` implements IEEE-754 binary64 round-to-nearest,
  ties-to-even (normal range; overflow and subnormals are outside the
  modelled input range), and `offsetMultiplier` chains the roundings in
  the order the expression is evaluated.
* The key-value store (`env.DB`) is an association list; external chain
  calls (`getReserves`, `token0`, `latestRoundData`, `transfer`) are
  oracle inputs of type `Except String _`, an `Except.error` standing for
  a rejected promise.  Side effects (store reads, store writes, chain
  reads, transfer submissions) are accumulated in an `Effects` record.
* `Promise.all` issues every listed call before any rejection is
  observed, so the chain-read effects are recorded together; when several
  reads fail the surviving error message is picked deterministically
  (first in list order) — the claims below never depend on which message
  wins, only on the 500 status and the absence of writes.
* The model assumes a well-formed configured private key
  (`privateKeyToAccount` does not throw) and a reachable store.
-/

namespace RwaPayment

/-! ## Exact fractions (JavaScript numbers) -/

/-- An exact fraction `n / d`; all constructions keep `d` positive.
Used to embed JavaScript numbers without `ℚ`'s normalization, so that
every computation kernel-reduces. -/
structure Frac where
  n : ℤ
  d : ℤ
  deriving DecidableEq, Repr

/-- The rational value denoted by a fraction. -/
def Frac.val (a : Frac) : ℚ := (a.n : ℚ) / (a.d : ℚ)

/-- Embed an integer. -/
def Frac.ofInt (n : ℤ) : Frac := ⟨n, 1⟩

/-! ## IEEE-754 binary64 rounding (normal range)

`Math.floor((1 + offsetPercent / 100) * 10000)` in the source is evaluated
in binary64.  `fp64F` rounds an exact fraction to the nearest binary64
value (ties to even), assuming the result lies in the normal range. -/

/-- Round `a.n / a.d` (with `a.d > 0`) to the nearest integer, ties to
even — the IEEE-754 default rounding applied to an integer-scaled
significand. -/
def rneF (a : Frac) : ℤ :=
  let f := Int.fdiv a.n a.d
  let r := a.n - f * a.d
  if 2 * r < a.d then f
  else if a.d < 2 * r then f + 1
  else if f % 2 = 0 then f else f + 1

/-- Binary exponent search: for positive `a`, returns `e` with
`2 ^ e ≤ a < 2 ^ (e + 1)`.  Fuel-based so that it kernel-reduces; 1200
steps cover the whole binary64 normal range. -/
def fpExpF : ℕ → Frac → ℤ → ℤ
  | 0, _, e => e
  | fuel + 1, a, e =>
    if a.n < a.d then fpExpF fuel ⟨2 * a.n, a.d⟩ (e - 1)
    else if 2 * a.d ≤ a.n then fpExpF fuel ⟨a.n, 2 * a.d⟩ (e + 1)
    else e

/-- Round an exact fraction to the nearest binary64 value (ties to even).
Normal range only: no overflow, subnormal or NaN handling, which is
sufficient for the modelled input range. -/
def fp64F (a : Frac) : Frac :=
  if a.n = 0 then ⟨0, 1⟩
  else
    let s : ℤ := if a.n < 0 then -1 else 1
    let na : ℤ := if a.n < 0 then -a.n else a.n
    let e := fpExpF 1200 ⟨na, a.d⟩ 0
    if e ≤ 52 then
      let k : ℕ := (52 - e).toNat
      ⟨s * rneF ⟨na * 2 ^ k, a.d⟩, 2 ^ k⟩
    else
      let k : ℕ := (e - 52).toNat
      ⟨s * rneF ⟨na, a.d * 2 ^ k⟩ * 2 ^ k, 1⟩

/-- `BigInt(Math.floor((1 + offsetPercent / 100) * 10000))` from the
source, with every binary64 rounding step made explicit:
`offsetPercent = Number(offset)` (the body's number itself), then the
division by 100, the addition of 1 and the multiplication by 10000 each
round to nearest-even, and `Math.floor` truncates toward −∞. -/
def offsetMultiplier (offset : Frac) : ℤ :=
  let d0 := fp64F offset
  let o1 := fp64F ⟨d0.n, d0.d * 100⟩
  let o2 := fp64F ⟨o1.n + o1.d, o1.d⟩
  let o3 := fp64F ⟨o2.n * 10000, o2.d⟩
  Int.fdiv o3.n o3.d

/-! ## viem helpers used by the source -/

/-- `parseEther(rwa_amount.toString())`: scale a decimal number by
`10 ^ 18` to an integer.  Exact for numbers with at most 18 fractional
decimal digits (the modelled input range). -/
def parseEther (q : Frac) : ℤ :=
  Int.fdiv (q.n * 10 ^ 18) q.d

/-- Decimal digit character. -/
def digitChar : ℕ → Char
  | 0 => '0' | 1 => '1' | 2 => '2' | 3 => '3' | 4 => '4'
  | 5 => '5' | 6 => '6' | 7 => '7' | 8 => '8' | _ => '9'

/-- Decimal digits of a natural number (fuel-based so it kernel-reduces). -/
def natDigitsAux : ℕ → ℕ → List Char → List Char
  | 0, _, acc => acc
  | fuel + 1, n, acc =>
    if n = 0 then acc
    else natDigitsAux fuel (n / 10) (digitChar (n % 10) :: acc)

/-- Decimal digits of a natural number (`"0"` for zero). -/
def natDigits (n : ℕ) : List Char :=
  if n = 0 then ['0'] else natDigitsAux 200 n []

/-- viem's `formatUnits(value, decimals)`: render an integer token amount
as a decimal string, padding the digit string to `decimals` digits,
splitting off the fraction and trimming its trailing zeros.  Implemented
over character lists so that it kernel-reduces. -/
def formatUnits (value : ℤ) (decimals : ℕ) : String :=
  let display := natDigits value.natAbs
  let display := List.replicate (decimals - display.length) '0' ++ display
  let integer := display.take (display.length - decimals)
  let fraction := display.drop (display.length - decimals)
  let fraction := (fraction.reverse.dropWhile (· = '0')).reverse
  String.mk ((if value < 0 then ['-'] else []) ++
    (if integer = [] then ['0'] else integer) ++
    (if fraction = [] then [] else '.' :: fraction))

/-! ## Data model -/

/-- The persisted settlement record (`resultData` in the source). -/
structure Outcome where
  status : String
  tx_hash : String
  alx_sent : String
  rwa_value : Frac
  timestamp : ℕ
  deriving DecidableEq, Repr

/-- The key-value namespace `env.DB`, as an association list. -/
abbrev Store := List (String × Outcome)

/-- `env.DB.get(key, {type:'json'})`. -/
def kvGet (db : Store) (k : String) : Option Outcome :=
  (db.find? (fun p => p.1 = k)).map (fun p => p.2)

/-- Worker environment bindings (`Env` in the source).  `ETH_RPC` and
`CHAINLINK_ORACLE_ADDRESS` exist only in the oracle variant but are inert
strings either way. -/
structure Env where
  API_KEY : String
  PRIVATE_KEY : String
  CHAIN_ID : String
  BSC_RPC : String
  ETH_RPC : String
  ALX_CONTRACT_ADDRESS : String
  USDT_CONTRACT_ADDRESS : String
  PAIR_ADDRESS : String
  CHAINLINK_ORACLE_ADDRESS : String
  deriving Repr

/-- Results of the external chain calls a single request can make, given
as oracle inputs; `Except.error` is a rejected promise. -/
structure ChainState where
  /-- `getReserves()` on the pair: `(reserve0, reserve1, blockTimestampLast)`. -/
  getReserves : Except String (ℕ × ℕ × ℕ)
  /-- `token0()` on the pair. -/
  token0 : Except String String
  /-- `latestRoundData().answer` on the Chainlink oracle (oracle variant only). -/
  latestAnswer : Except String ℤ
  /-- `walletClient.writeContract` for `transfer(to, amount)`: the tx hash. -/
  transfer : Except String String
  deriving Repr

/-- A parsed JSON body for `POST /pay`.  Fields are `none` when absent
(`undefined` after destructuring); string fields embed JSON strings and
numeric fields embed JSON numbers — the shapes the API is called with. -/
structure ReqBody where
  address : Option String
  rwa_amount : Option Frac
  offset : Option Frac
  order : Option String
  deriving DecidableEq, Repr

/-- An incoming HTTP request, reduced to the pieces the worker reads:
the `X-API-KEY` header, method, pathname, the `order` query parameter
(for `GET /status`) and the JSON body (`Except.error` = `request.json()`
threw). -/
structure Request where
  apiKey : Option String
  method : String
  path : String
  queryOrder : Option String
  body : Except String ReqBody
  deriving Repr

/-- The JSON response shapes the worker produces. -/
inductive RespBody where
  /-- `{error: msg}` — auth, validation and routing errors. -/
  | errorMsg (msg : String)
  /-- `{error: e.message, stack: e.stack}` — the catch-all 500. -/
  | errorWithStack (msg : String)
  /-- `{msg: 'Duplicate request', data: existing}`. -/
  | duplicate (data : Outcome)
  /-- `{code: 200, data: resultData}`. -/
  | success (data : Outcome)
  /-- `GET /status` hit: the stored record. -/
  | record (r : Outcome)
  /-- `GET /status` miss: `{status: 'not_found'}`. -/
  | statusNotFound
  deriving DecidableEq, Repr

/-- An HTTP response: status code and JSON body. -/
structure HttpResponse where
  status : ℕ
  body : RespBody
  deriving DecidableEq, Repr

/-- The side effects a request performs, in order of occurrence:
store keys read, store writes, chain read calls issued, and transfer
submissions `(to, amount)` handed to the wallet client. -/
structure Effects where
  kvReads : List String
  kvWrites : List (String × Outcome)
  chainCalls : List String
  transfers : List (String × ℤ)
  deriving DecidableEq, Repr

/-- No side effects. -/
def noEffects : Effects := ⟨[], [], [], []⟩

/-! ## The pool-reserve resolver (shared by both variants) -/

/-- JavaScript's `toLowerCase()`, restricted to the ASCII range (chain
addresses are ASCII hex strings, on which the two agree).  Implemented
character-wise so that it kernel-reduces. -/
def toLowerCase (s : String) : String := ⟨s.data.map Char.toLower⟩

/-- Lines 104–110 of `index.ts` (123–130 of the oracle variant): decide
which pool reserve is ALX and which is USDT by comparing `token0` with
the configured ALX address, both lowercased.  Returns
`(alxReserve, usdtReserve)`. -/
def resolveReserves (token0 alxAddr : String) (reserve0 reserve1 : ℕ) : ℕ × ℕ :=
  if toLowerCase token0 = toLowerCase alxAddr then (reserve0, reserve1)
  else (reserve1, reserve0)

/-! ## The `POST /pay` pipeline, direct variant (`src/src/index.ts`) -/

/-- The body of the `POST /pay` route of `src/src/index.ts` (the region
inside the `try`): parse the body, check field presence by JavaScript
truthiness (`!address || !rwa_amount || !order || offset === undefined`),
look up the idempotency record, query the pair, resolve the reserves,
convert and submit.  Every thrown error lands in the catch-all
`jsonResp({error, stack}, 500)`. -/
def payDirect (env : Env) (db : Store) (chain : ChainState) (now : ℕ)
    (req : Request) : HttpResponse × Effects :=
  match req.body with
  | .error e => (⟨500, .errorWithStack e⟩, noEffects)
  | .ok b =>
    match b.address, b.rwa_amount, b.offset, b.order with
    | some addr, some rwa, some off, some ord =>
      -- present fields that are still falsy (`""`, `0`) fail the check too
      if addr = "" ∨ rwa.n = 0 ∨ ord = "" then
        (⟨400, .errorMsg "Missing parameters"⟩, noEffects)
      else
        let effRead : Effects := { noEffects with kvReads := [ord] }
        match kvGet db ord with
        | some existing => (⟨200, .duplicate existing⟩, effRead)
        | none =>
          let effChain : Effects :=
            { effRead with chainCalls := ["getReserves", "token0"] }
          match chain.getReserves, chain.token0 with
          | .error e, _ => (⟨500, .errorWithStack e⟩, effChain)
          | .ok _, .error e => (⟨500, .errorWithStack e⟩, effChain)
          | .ok (reserve0, reserve1, _), .ok token0 =>
            let res := resolveReserves token0 env.ALX_CONTRACT_ADDRESS reserve0 reserve1
            let alxReserve := res.1
            let usdtReserve := res.2
            if alxReserve = 0 then
              (⟨500, .errorWithStack "Liquidity pool is empty"⟩, effChain)
            else
              let rwaAmountBigInt := parseEther rwa
              -- JS BigInt division by zero throws a RangeError
              if usdtReserve = 0 then
                (⟨500, .errorWithStack "Division by zero"⟩, effChain)
              else
                let sendAmount0 := Int.tdiv (rwaAmountBigInt * alxReserve) usdtReserve
                let multiplier := offsetMultiplier off
                let sendAmount := Int.tdiv (sendAmount0 * multiplier) 10000
                let effSend : Effects :=
                  { effChain with transfers := [(addr, sendAmount)] }
                match chain.transfer with
                | .error e => (⟨500, .errorWithStack e⟩, effSend)
                | .ok txHash =>
                  let resultData : Outcome :=
                    ⟨"success", txHash, formatUnits sendAmount 18, rwa, now⟩
                  (⟨200, .success resultData⟩,
                   { effSend with kvWrites := [(ord, resultData)] })
    | _, _, _, _ => (⟨400, .errorMsg "Missing parameters"⟩, noEffects)

/-- The full `fetch` handler of `src/src/index.ts`: API-key check, the
`GET /status` route, the `POST /pay` route, and the 404 fallthrough. -/
def handleDirect (env : Env) (db : Store) (chain : ChainState) (now : ℕ)
    (req : Request) : HttpResponse × Effects :=
  match req.apiKey with
  | none => (⟨401, .errorMsg "Unauthorized: Invalid API Key"⟩, noEffects)
  | some k =>
    -- `!apiKey` is also true for an empty header value
    if k = "" ∨ k ≠ env.API_KEY then
      (⟨401, .errorMsg "Unauthorized: Invalid API Key"⟩, noEffects)
    else if req.method = "GET" ∧ req.path = "/status" then
      match req.queryOrder with
      | none => (⟨400, .errorMsg "Missing order"⟩, noEffects)
      | some o =>
        if o = "" then (⟨400, .errorMsg "Missing order"⟩, noEffects)
        else
          match kvGet db o with
          | some record => (⟨200, .record record⟩, { noEffects with kvReads := [o] })
          | none => (⟨404, .statusNotFound⟩, { noEffects with kvReads := [o] })
    else if req.method = "POST" ∧ req.path = "/pay" then
      payDirect env db chain now req
    else
      (⟨404, .errorMsg "Not found"⟩, noEffects)

/-! ## The `POST /pay` pipeline, oracle-adjusted variant (`src/unnamed/part_000`) -/

/-- The body of the `POST /pay` route of `src/unnamed/part_000`: as in
the direct variant, but `Promise.all` additionally reads
`latestRoundData()` from the Chainlink oracle, and the pegged (CNY)
value is first converted to USDT through the 8-decimal rate:
`usdtAmount = (rwaAmountBigInt * cnyToUsdRate) / 100000000n`. -/
def payOracle (env : Env) (db : Store) (chain : ChainState) (now : ℕ)
    (req : Request) : HttpResponse × Effects :=
  match req.body with
  | .error e => (⟨500, .errorWithStack e⟩, noEffects)
  | .ok b =>
    match b.address, b.rwa_amount, b.offset, b.order with
    | some addr, some rwa, some off, some ord =>
      if addr = "" ∨ rwa.n = 0 ∨ ord = "" then
        (⟨400, .errorMsg "Missing parameters"⟩, noEffects)
      else
        let effRead : Effects := { noEffects with kvReads := [ord] }
        match kvGet db ord with
        | some existing => (⟨200, .duplicate existing⟩, effRead)
        | none =>
          let effChain : Effects :=
            { effRead with chainCalls := ["getReserves", "token0", "latestRoundData"] }
          match chain.getReserves, chain.token0, chain.latestAnswer with
          | .error e, _, _ => (⟨500, .errorWithStack e⟩, effChain)
          | .ok _, .error e, _ => (⟨500, .errorWithStack e⟩, effChain)
          | .ok _, .ok _, .error e => (⟨500, .errorWithStack e⟩, effChain)
          | .ok (reserve0, reserve1, _), .ok token0, .ok answer =>
            let cnyToUsdRate := answer
            let res := resolveReserves token0 env.ALX_CONTRACT_ADDRESS reserve0 reserve1
            let alxReserve := res.1
            let usdtReserve := res.2
            if alxReserve = 0 then
              (⟨500, .errorWithStack "Liquidity pool is empty"⟩, effChain)
            else
              let rwaAmountBigInt := parseEther rwa
              let usdtAmount := Int.tdiv (rwaAmountBigInt * cnyToUsdRate) 100000000
              if usdtReserve = 0 then
                (⟨500, .errorWithStack "Division by zero"⟩, effChain)
              else
                let sendAmount0 := Int.tdiv (usdtAmount * alxReserve) usdtReserve
                let multiplier := offsetMultiplier off
                let sendAmount := Int.tdiv (sendAmount0 * multiplier) 10000
                let effSend : Effects :=
                  { effChain with transfers := [(addr, sendAmount)] }
                match chain.transfer with
                | .error e => (⟨500, .errorWithStack e⟩, effSend)
                | .ok txHash =>
                  let resultData : Outcome :=
                    ⟨"success", txHash, formatUnits sendAmount 18, rwa, now⟩
                  (⟨200, .success resultData⟩,
                   { effSend with kvWrites := [(ord, resultData)] })
    | _, _, _, _ => (⟨400, .errorMsg "Missing parameters"⟩, noEffects)

/-- The full `fetch` handler of `src/unnamed/part_000`. -/
def handleOracle (env : Env) (db : Store) (chain : ChainState) (now : ℕ)
    (req : Request) : HttpResponse × Effects :=
  match req.apiKey with
  | none => (⟨401, .errorMsg "Unauthorized: Invalid API Key"⟩, noEffects)
  | some k =>
    if k = "" ∨ k ≠ env.API_KEY then
      (⟨401, .errorMsg "Unauthorized: Invalid API Key"⟩, noEffects)
    else if req.method = "GET" ∧ req.path = "/status" then
      match req.queryOrder with
      | none => (⟨400, .errorMsg "Missing order"⟩, noEffects)
      | some o =>
        if o = "" then (⟨400, .errorMsg "Missing order"⟩, noEffects)
        else
          match kvGet db o with
          | some record => (⟨200, .record record⟩, { noEffects with kvReads := [o] })
          | none => (⟨404, .statusNotFound⟩, { noEffects with kvReads := [o] })
    else if req.method = "POST" ∧ req.path = "/pay" then
      payOracle env db chain now req
    else
      (⟨404, .errorMsg "Not found"⟩, noEffects)

/-! ## Concrete fixtures for witnesses and counterexamples -/

/-- A sample worker environment. -/
def testEnv : Env :=
  ⟨"secret-key", "0xPRIVATE", "56", "https://bsc-rpc", "https://eth-rpc",
   "0xALX", "0xUSDT", "0xPAIR", "0xORACLE"⟩

/-- A sample chain state: reserves 2,000,000×10¹⁸ (ALX) and
1,000,000×10¹⁸ (USDT) with `token0` the ALX address in mixed case, an
oracle answer of 14000000 (0.14 at scale 10⁸), and a transfer that the
network accepts. -/
def testChain : ChainState :=
  ⟨.ok (2000000 * 10 ^ 18, 1000000 * 10 ^ 18, 0), .ok "0xaLx",
   .ok 14000000, .ok "0xTXHASH"⟩

/-- A well-formed `POST /pay` request. -/
def payReq (key addr : String) (rwa off : Frac) (ord : String) : Request :=
  ⟨some key, "POST", "/pay", none, .ok ⟨some addr, some rwa, some off, some ord⟩⟩

/-- A previously stored settlement outcome, used to populate the store in
duplicate-request scenarios. -/
def storedOutcome : Outcome :=
  ⟨"success", "0xOLDTX", "200", ⟨100, 1⟩, 1111⟩

example :
    (handleDirect testEnv [] testChain 1234
      (payReq "secret-key" "0xDEST" ⟨100, 1⟩ ⟨0, 1⟩ "order-1")).2.transfers =
      [("0xDEST", 200 * 10 ^ 18)] := by decide

example :
    handleDirect testEnv [] testChain 1234
      (payReq "secret-key" "0xDEST" ⟨100, 1⟩ ⟨0, 1⟩ "order-1") =
    (⟨200, .success ⟨"success", "0xTXHASH", "200", ⟨100, 1⟩, 1234⟩⟩,
     ⟨["order-1"],
      [("order-1", ⟨"success", "0xTXHASH", "200", ⟨100, 1⟩, 1234⟩)],
      ["getReserves", "token0"],
      [("0xDEST", 200 * 10 ^ 18)]⟩) := by decide

example :
    handleOracle testEnv [] testChain 1234
      (payReq "secret-key" "0xDEST" ⟨700, 1⟩ ⟨0, 1⟩ "order-2") =
    (⟨200, .success ⟨"success", "0xTXHASH", "196", ⟨700, 1⟩, 1234⟩⟩,
     ⟨["order-2"],
      [("order-2", ⟨"success", "0xTXHASH", "196", ⟨700, 1⟩, 1234⟩)],
      ["getReserves", "token0", "latestRoundData"],
      [("0xDEST", 196 * 10 ^ 18)]⟩) := by decide

/-! ## Route helper lemmas -/

/-- With a correct, non-empty API key, a `POST /pay` request reaches the
direct pay pipeline. -/
theorem handleDirect_routes_pay (env : Env) (db : Store) (chain : ChainState)
    (now : ℕ) (qo : Option String) (body : Except String ReqBody)
    (hA : env.API_KEY ≠ "") :
    handleDirect env db chain now ⟨some env.API_KEY, "POST", "/pay", qo, body⟩ =
      payDirect env db chain now ⟨some env.API_KEY, "POST", "/pay", qo, body⟩ := by
  simp [handleDirect, hA]

/-- With a correct, non-empty API key, a `POST /pay` request reaches the
oracle pay pipeline. -/
theorem handleOracle_routes_pay (env : Env) (db : Store) (chain : ChainState)
    (now : ℕ) (qo : Option String) (body : Except String ReqBody)
    (hA : env.API_KEY ≠ "") :
    handleOracle env db chain now ⟨some env.API_KEY, "POST", "/pay", qo, body⟩ =
      payOracle env db chain now ⟨some env.API_KEY, "POST", "/pay", qo, body⟩ := by
  simp [handleOracle, hA]

/-- Truncating division agrees with the rational floor when the dividend
is non-negative and the divisor is a non-zero natural (the regime of every
`floor` in the specification's conversion formulas). -/
theorem tdiv_eq_rat_floor (a : ℤ) (b : ℕ) (ha : 0 ≤ a) (hb : b ≠ 0) :
    Int.tdiv a b = ⌊(a : ℚ) / (b : ℚ)⌋ := by
  rw [Rat.floor_intCast_div_natCast]
  exact Int.tdiv_eq_ediv ha (by exact_mod_cast Nat.zero_le b)

/-! ## Claims -/

/-- **C8.** For every request (any method, any path) whose `X-API-KEY`
header is absent or differs from the configured secret, both workers
return 401 with no store read, no store write, and no chain call. -/
theorem unauthenticated_no_side_effects (env : Env) (db : Store)
    (chain : ChainState) (now : ℕ) (req : Request)
    (hk : ∀ k, req.apiKey = some k → k ≠ env.API_KEY) :
    handleDirect env db chain now req =
      (⟨401, .errorMsg "Unauthorized: Invalid API Key"⟩, noEffects) ∧
    handleOracle env db chain now req =
      (⟨401, .errorMsg "Unauthorized: Invalid API Key"⟩, noEffects) := by
  match h : req.apiKey with
  | none => exact ⟨by simp [handleDirect, h], by simp [handleOracle, h]⟩
  | some k =>
    have hne := hk k h
    exact ⟨by simp [handleDirect, h, hne], by simp [handleOracle, h, hne]⟩

/-- **C8 witness.** A `GET /status` request with a wrong key gets 401 and
produces zero side effects. -/
theorem unauthenticated_no_side_effects_witness :
    (∀ k, (Request.mk (some "wrong-key") "GET" "/status" (some "order-1")
        (.error "no body") : Request).apiKey = some k → k ≠ testEnv.API_KEY) ∧
    handleDirect testEnv [("order-1", storedOutcome)] testChain 1234
      ⟨some "wrong-key", "GET", "/status", some "order-1", .error "no body"⟩ =
      (⟨401, .errorMsg "Unauthorized: Invalid API Key"⟩, noEffects) := by
  refine ⟨by decide, ?_⟩
  exact (unauthenticated_no_side_effects testEnv [("order-1", storedOutcome)]
    testChain 1234 _ (by decide)).1

/-- **C9.** Reserve-slot resolution: if `token0` equals the configured
settlement-token address under case-insensitive comparison then
`reserve0` is the ALX (settlement) reserve and `reserve1` the USDT
(reference) reserve; otherwise the assignment is swapped; and the
resolution depends on the two address strings only through their
lowercase forms, i.e. it is unchanged under any re-casing of either. -/
theorem reserve_resolution_case_insensitive (t0 t0' a a' : String) (r0 r1 : ℕ)
    (ht : toLowerCase t0' = toLowerCase t0)
    (ha : toLowerCase a' = toLowerCase a) :
    (toLowerCase t0 = toLowerCase a → resolveReserves t0 a r0 r1 = (r0, r1)) ∧
    (toLowerCase t0 ≠ toLowerCase a → resolveReserves t0 a r0 r1 = (r1, r0)) ∧
    resolveReserves t0' a' r0 r1 = resolveReserves t0 a r0 r1 := by
  refine ⟨fun h => by simp [resolveReserves, h], fun h => by simp [resolveReserves, h], ?_⟩
  simp only [resolveReserves, ht, ha]

/-- **C9 witness.** `token0 = "0xAbC"` matches the configured address
`"0xaBc"` case-insensitively, so `reserve0 = 7` is taken as the ALX
reserve no matter the literal casing of either string. -/
theorem reserve_resolution_case_insensitive_witness :
    toLowerCase "0xABC" = toLowerCase "0xAbC" ∧
    toLowerCase "0xabc" = toLowerCase "0xaBc" ∧
    toLowerCase "0xAbC" = toLowerCase "0xaBc" ∧
    resolveReserves "0xAbC" "0xaBc" 7 9 = (7, 9) := by
  refine ⟨by decide, by decide, by decide, ?_⟩
  exact (reserve_resolution_case_insensitive "0xAbC" "0xABC" "0xaBc" "0xabc" 7 9
    (by decide) (by decide)).1 (by decide)

/-- **C1 counterexample.** The claim promises the stored outcome for
*any* body carrying an already-settled `order_id`, but the field-presence
check runs *before* the idempotency lookup: with `"order-1"` already in
the store, a body for `"order-1"` whose `rwa_amount` is `0` gets
`400 Missing parameters` (and not even a store read), not the stored
outcome. -/
theorem duplicate_any_body_counterexample :
    kvGet [("order-1", storedOutcome)] "order-1" = some storedOutcome ∧
    handleDirect testEnv [("order-1", storedOutcome)] testChain 1234
      (payReq "secret-key" "0xDEST" ⟨0, 1⟩ ⟨0, 1⟩ "order-1") =
      (⟨400, .errorMsg "Missing parameters"⟩, noEffects) ∧
    handleOracle testEnv [("order-1", storedOutcome)] testChain 1234
      (payReq "secret-key" "0xDEST" ⟨0, 1⟩ ⟨0, 1⟩ "order-1") =
      (⟨400, .errorMsg "Missing parameters"⟩, noEffects) := by
  refine ⟨by decide, by decide, by decide⟩

/-- **C1 (amended).** For every `POST /pay` request that passes the
field-presence validation and whose order identifier is already present
in the store, both workers return the stored outcome with the
`Duplicate request` indicator, read the store once, and perform no
transfer submission, no chain call and no store write — regardless of the
rest of the request body. -/
theorem duplicate_request_short_circuits (env : Env) (db : Store)
    (chain : ChainState) (now : ℕ) (addr : String) (rwa off : Frac)
    (ord : String) (rec : Outcome)
    (hA : env.API_KEY ≠ "") (haddr : addr ≠ "") (hrwa : rwa.n ≠ 0)
    (hord : ord ≠ "") (hdb : kvGet db ord = some rec) :
    handleDirect env db chain now (payReq env.API_KEY addr rwa off ord) =
      (⟨200, .duplicate rec⟩, ⟨[ord], [], [], []⟩) ∧
    handleOracle env db chain now (payReq env.API_KEY addr rwa off ord) =
      (⟨200, .duplicate rec⟩, ⟨[ord], [], [], []⟩) := by
  constructor
  · rw [payReq, handleDirect_routes_pay env db chain now _ _ hA]
    simp [payDirect, haddr, hrwa, hord, hdb, noEffects]
  · rw [payReq, handleOracle_routes_pay env db chain now _ _ hA]
    simp [payOracle, haddr, hrwa, hord, hdb, noEffects]

/-- **C1 witness.** A fully populated retry of the already-settled
`"order-1"` (with a different destination and offset) gets the stored
outcome back and causes no chain call and no write. -/
theorem duplicate_request_short_circuits_witness :
    testEnv.API_KEY ≠ "" ∧ "0xOTHER" ≠ "" ∧ (Frac.mk 55 1).n ≠ 0 ∧
    "order-1" ≠ "" ∧
    kvGet [("order-1", storedOutcome)] "order-1" = some storedOutcome ∧
    handleDirect testEnv [("order-1", storedOutcome)] testChain 1234
      (payReq testEnv.API_KEY "0xOTHER" ⟨55, 1⟩ ⟨-3, 1⟩ "order-1") =
      (⟨200, .duplicate storedOutcome⟩, ⟨["order-1"], [], [], []⟩) := by
  refine ⟨by decide, by decide, by decide, by decide, by decide, ?_⟩
  exact (duplicate_request_short_circuits testEnv [("order-1", storedOutcome)]
    testChain 1234 "0xOTHER" ⟨55, 1⟩ ⟨-3, 1⟩ "order-1" storedOutcome
    (by decide) (by decide) (by decide) (by decide) (by decide)).1

/-- **C10.** The field-presence check treats *falsy* values as missing
for `address`, `rwa_amount` and `order` but compares only `offset`
against `undefined`: a present `rwa_amount = 0`, empty-string `address`
or empty-string `order` is rejected with `400 Missing parameters` (with
no side effects), while `offset = 0` passes the check — with the other
fields truthy the pipeline proceeds (here into the duplicate
short-circuit). -/
theorem falsy_field_validation (env : Env) (db : Store) (chain : ChainState)
    (now : ℕ) (addr : String) (rwa off : Frac) (ord : String) (d : ℤ)
    (rec : Outcome) (hA : env.API_KEY ≠ "") (haddr : addr ≠ "")
    (hrwa : rwa.n ≠ 0) (hord : ord ≠ "") (hdb : kvGet db ord = some rec) :
    (handleDirect env db chain now (payReq env.API_KEY addr ⟨0, d⟩ off ord) =
        (⟨400, .errorMsg "Missing parameters"⟩, noEffects) ∧
      handleOracle env db chain now (payReq env.API_KEY addr ⟨0, d⟩ off ord) =
        (⟨400, .errorMsg "Missing parameters"⟩, noEffects)) ∧
    (handleDirect env db chain now (payReq env.API_KEY "" rwa off ord) =
        (⟨400, .errorMsg "Missing parameters"⟩, noEffects) ∧
      handleOracle env db chain now (payReq env.API_KEY "" rwa off ord) =
        (⟨400, .errorMsg "Missing parameters"⟩, noEffects)) ∧
    (handleDirect env db chain now (payReq env.API_KEY addr rwa off "") =
        (⟨400, .errorMsg "Missing parameters"⟩, noEffects) ∧
      handleOracle env db chain now (payReq env.API_KEY addr rwa off "") =
        (⟨400, .errorMsg "Missing parameters"⟩, noEffects)) ∧
    (handleDirect env db chain now (payReq env.API_KEY addr rwa ⟨0, 1⟩ ord) =
        (⟨200, .duplicate rec⟩, ⟨[ord], [], [], []⟩) ∧
      handleOracle env db chain now (payReq env.API_KEY addr rwa ⟨0, 1⟩ ord) =
        (⟨200, .duplicate rec⟩, ⟨[ord], [], [], []⟩)) := by
  refine ⟨⟨?_, ?_⟩, ⟨?_, ?_⟩, ⟨?_, ?_⟩, ?_⟩
  · rw [payReq, handleDirect_routes_pay env db chain now _ _ hA]
    simp [payDirect]
  · rw [payReq, handleOracle_routes_pay env db chain now _ _ hA]
    simp [payOracle]
  · rw [payReq, handleDirect_routes_pay env db chain now _ _ hA]
    simp [payDirect]
  · rw [payReq, handleOracle_routes_pay env db chain now _ _ hA]
    simp [payOracle]
  · rw [payReq, handleDirect_routes_pay env db chain now _ _ hA]
    simp [payDirect]
  · rw [payReq, handleOracle_routes_pay env db chain now _ _ hA]
    simp [payOracle]
  · constructor
    · rw [payReq, handleDirect_routes_pay env db chain now _ _ hA]
      simp [payDirect, haddr, hrwa, hord, hdb, noEffects]
    · rw [payReq, handleOracle_routes_pay env db chain now _ _ hA]
      simp [payOracle, haddr, hrwa, hord, hdb, noEffects]

/-- **C10 witness.** With `"order-1"` already settled: a body with
`rwa_amount = 0` is rejected as missing even though the field is present,
while a body with `offset = 0` passes validation and reaches the
duplicate short-circuit. -/
theorem falsy_field_validation_witness :
    testEnv.API_KEY ≠ "" ∧ "0xDEST" ≠ "" ∧ (Frac.mk 100 1).n ≠ 0 ∧
    "order-1" ≠ "" ∧
    kvGet [("order-1", storedOutcome)] "order-1" = some storedOutcome ∧
    handleDirect testEnv [("order-1", storedOutcome)] testChain 1234
      (payReq testEnv.API_KEY "0xDEST" ⟨0, 1⟩ ⟨5, 1⟩ "order-1") =
      (⟨400, .errorMsg "Missing parameters"⟩, noEffects) ∧
    handleDirect testEnv [("order-1", storedOutcome)] testChain 1234
      (payReq testEnv.API_KEY "0xDEST" ⟨100, 1⟩ ⟨0, 1⟩ "order-1") =
      (⟨200, .duplicate storedOutcome⟩, ⟨["order-1"], [], [], []⟩) := by
  have h := falsy_field_validation testEnv [("order-1", storedOutcome)]
    testChain 1234 "0xDEST" ⟨100, 1⟩ ⟨5, 1⟩ "order-1" 1 storedOutcome
    (by decide) (by decide) (by decide) (by decide) (by decide)
  exact ⟨by decide, by decide, by decide, by decide, by decide, h.1.1, h.2.2.2.1⟩

/-- **C2.** When the resolved ALX (settlement-token) reserve is exactly
zero — whatever the reference reserve `r1` resolves to — a validated,
non-duplicate `POST /pay` aborts with the empty-pool error as an HTTP
500, after the chain reads but with no transfer submission and no store
write, in both workers. -/
theorem empty_pool_aborts (env : Env) (db : Store) (chain : ChainState)
    (now : ℕ) (addr : String) (rwa off : Frac) (ord : String)
    (r0 r1 ts : ℕ) (t0 : String) (ans : ℤ)
    (hA : env.API_KEY ≠ "") (haddr : addr ≠ "") (hrwa : rwa.n ≠ 0)
    (hord : ord ≠ "") (hdb : kvGet db ord = none)
    (hg : chain.getReserves = .ok (r0, r1, ts)) (ht : chain.token0 = .ok t0)
    (hans : chain.latestAnswer = .ok ans)
    (hres : (resolveReserves t0 env.ALX_CONTRACT_ADDRESS r0 r1).1 = 0) :
    handleDirect env db chain now (payReq env.API_KEY addr rwa off ord) =
      (⟨500, .errorWithStack "Liquidity pool is empty"⟩,
       ⟨[ord], [], ["getReserves", "token0"], []⟩) ∧
    handleOracle env db chain now (payReq env.API_KEY addr rwa off ord) =
      (⟨500, .errorWithStack "Liquidity pool is empty"⟩,
       ⟨[ord], [], ["getReserves", "token0", "latestRoundData"], []⟩) := by
  constructor
  · rw [payReq, handleDirect_routes_pay env db chain now _ _ hA]
    simp [payDirect, haddr, hrwa, hord, hdb, hg, ht, hres, noEffects]
  · rw [payReq, handleOracle_routes_pay env db chain now _ _ hA]
    simp [payOracle, haddr, hrwa, hord, hdb, hg, ht, hans, hres, noEffects]

/-- **C2 witness.** A pool reading of `(0, 5×10¹⁸)` with `token0 = ALX`
makes the direct worker return the empty-pool 500 with no transfer and no
write, for a fresh order. -/
theorem empty_pool_aborts_witness :
    (ChainState.mk (.ok (0, 5 * 10 ^ 18, 0)) (.ok "0xalx") (.ok 14000000)
        (.ok "0xTX")).getReserves = .ok (0, 5 * 10 ^ 18, 0) ∧
    (resolveReserves "0xalx" testEnv.ALX_CONTRACT_ADDRESS 0 (5 * 10 ^ 18)).1 = 0 ∧
    handleDirect testEnv []
      ⟨.ok (0, 5 * 10 ^ 18, 0), .ok "0xalx", .ok 14000000, .ok "0xTX"⟩ 1234
      (payReq testEnv.API_KEY "0xDEST" ⟨100, 1⟩ ⟨0, 1⟩ "order-9") =
      (⟨500, .errorWithStack "Liquidity pool is empty"⟩,
       ⟨["order-9"], [], ["getReserves", "token0"], []⟩) := by
  refine ⟨rfl, by decide, ?_⟩
  exact (empty_pool_aborts testEnv []
    ⟨.ok (0, 5 * 10 ^ 18, 0), .ok "0xalx", .ok 14000000, .ok "0xTX"⟩ 1234
    "0xDEST" ⟨100, 1⟩ ⟨0, 1⟩ "order-9" 0 (5 * 10 ^ 18) 0 "0xalx" 14000000
    (by decide) (by decide) (by decide) (by decide) rfl
    rfl rfl rfl (by decide)).1

/-- **C3.** Direct mode, offset 0: the amount handed to the transfer call
is `(parseEther rwa × alxReserve) tdiv usdtReserve`, and since the
dividend is non-negative this truncating division is exactly
`floor(requested_pegged_value_scaled × settlement_reserve / reference_reserve)`
as a rational floor — the multiply-before-divide ordering of the source. -/
theorem direct_conversion_formula (env : Env) (db : Store) (chain : ChainState)
    (now : ℕ) (addr : String) (rwa : Frac) (ord : String)
    (r0 r1 ts : ℕ) (t0 : String) (a u : ℕ) (tx : String)
    (hA : env.API_KEY ≠ "") (haddr : addr ≠ "") (hrwa : rwa.n ≠ 0)
    (hord : ord ≠ "") (hdb : kvGet db ord = none)
    (hg : chain.getReserves = .ok (r0, r1, ts)) (ht : chain.token0 = .ok t0)
    (hres : resolveReserves t0 env.ALX_CONTRACT_ADDRESS r0 r1 = (a, u))
    (ha0 : a ≠ 0) (hu0 : u ≠ 0) (htx : chain.transfer = .ok tx)
    (hpe : 0 ≤ parseEther rwa) :
    (handleDirect env db chain now
        (payReq env.API_KEY addr rwa ⟨0, 1⟩ ord)).2.transfers =
      [(addr, Int.tdiv (parseEther rwa * a) u)] ∧
    Int.tdiv (parseEther rwa * a) u =
      ⌊((parseEther rwa * (a : ℤ) : ℤ) : ℚ) / ((u : ℕ) : ℚ)⌋ := by
  have hm : offsetMultiplier ⟨0, 1⟩ = 10000 := by decide
  constructor
  · rw [payReq, handleDirect_routes_pay env db chain now _ _ hA]
    simp [payDirect, haddr, hrwa, hord, hdb, hg, ht, hres, ha0, hu0, htx, hm,
      Int.mul_tdiv_cancel _ (by norm_num : (10000 : ℤ) ≠ 0)]
  · have := tdiv_eq_rat_floor (parseEther rwa * a) u
      (mul_nonneg hpe (Int.natCast_nonneg a)) hu0
    rw [this]

/-- **C3 witness.** With reserves 2,000,000×10¹⁸ / 1,000,000×10¹⁸,
`rwa_amount = 100` and offset 0, the direct worker submits a transfer of
exactly 200×10¹⁸. -/
theorem direct_conversion_formula_witness :
    resolveReserves "0xaLx" testEnv.ALX_CONTRACT_ADDRESS
        (2000000 * 10 ^ 18) (1000000 * 10 ^ 18) =
      (2000000 * 10 ^ 18, 1000000 * 10 ^ 18) ∧
    (0 : ℤ) ≤ parseEther ⟨100, 1⟩ ∧
    (handleDirect testEnv [] testChain 1234
        (payReq testEnv.API_KEY "0xDEST" ⟨100, 1⟩ ⟨0, 1⟩ "order-1")).2.transfers =
      [("0xDEST", 200 * 10 ^ 18)] := by
  refine ⟨by decide, by decide, ?_⟩
  have h := direct_conversion_formula testEnv [] testChain 1234 "0xDEST"
    ⟨100, 1⟩ "order-1" (2000000 * 10 ^ 18) (1000000 * 10 ^ 18) 0 "0xaLx"
    (2000000 * 10 ^ 18) (1000000 * 10 ^ 18) "0xTXHASH"
    (by decide) (by decide) (by decide) (by decide) (by decide)
    rfl rfl (by decide) (by decide) (by decide)
    rfl (by decide)
  exact h.1.trans (by decide)

/-- **C4.** Oracle-adjusted mode, offset 0: the amount handed to the
transfer call is the chained truncating division
`((parseEther rwa × rate) tdiv 10⁸ × alxReserve) tdiv usdtReserve`, and
with non-negative rate both steps are exactly the rational floors
`floor(floor(scaled × rate / 10⁸) × settlement_reserve / reference_reserve)`. -/
theorem oracle_conversion_formula (env : Env) (db : Store) (chain : ChainState)
    (now : ℕ) (addr : String) (rwa : Frac) (ord : String)
    (r0 r1 ts : ℕ) (t0 : String) (ans : ℤ) (a u : ℕ) (tx : String)
    (hA : env.API_KEY ≠ "") (haddr : addr ≠ "") (hrwa : rwa.n ≠ 0)
    (hord : ord ≠ "") (hdb : kvGet db ord = none)
    (hg : chain.getReserves = .ok (r0, r1, ts)) (ht : chain.token0 = .ok t0)
    (hans : chain.latestAnswer = .ok ans)
    (hres : resolveReserves t0 env.ALX_CONTRACT_ADDRESS r0 r1 = (a, u))
    (ha0 : a ≠ 0) (hu0 : u ≠ 0) (htx : chain.transfer = .ok tx)
    (hpe : 0 ≤ parseEther rwa) (hansn : 0 ≤ ans) :
    (handleOracle env db chain now
        (payReq env.API_KEY addr rwa ⟨0, 1⟩ ord)).2.transfers =
      [(addr, Int.tdiv (Int.tdiv (parseEther rwa * ans) 100000000 * a) u)] ∧
    Int.tdiv (parseEther rwa * ans) 100000000 =
      ⌊((parseEther rwa * ans : ℤ) : ℚ) / ((100000000 : ℕ) : ℚ)⌋ ∧
    Int.tdiv (Int.tdiv (parseEther rwa * ans) 100000000 * a) u =
      ⌊((Int.tdiv (parseEther rwa * ans) 100000000 * (a : ℤ) : ℤ) : ℚ) /
        ((u : ℕ) : ℚ)⌋ := by
  have hm : offsetMultiplier ⟨0, 1⟩ = 10000 := by decide
  have hinter : (0 : ℤ) ≤ Int.tdiv (parseEther rwa * ans) 100000000 :=
    Int.tdiv_nonneg (mul_nonneg hpe hansn) (by norm_num)
  refine ⟨?_, ?_, ?_⟩
  · rw [payReq, handleOracle_routes_pay env db chain now _ _ hA]
    simp [payOracle, haddr, hrwa, hord, hdb, hg, ht, hans, hres, ha0, hu0, htx,
      hm, Int.mul_tdiv_cancel _ (by norm_num : (10000 : ℤ) ≠ 0)]
  · exact tdiv_eq_rat_floor (parseEther rwa * ans) 100000000
      (mul_nonneg hpe hansn) (by norm_num)
  · have := tdiv_eq_rat_floor (Int.tdiv (parseEther rwa * ans) 100000000 * a) u
      (mul_nonneg hinter (Int.natCast_nonneg a)) hu0
    rw [this]

/-- **C4 witness.** With rate 14000000 (0.14 at scale 10⁸),
`rwa_amount = 700`, reserves 2,000,000×10¹⁸ / 1,000,000×10¹⁸ and
offset 0, the oracle worker submits exactly 196×10¹⁸:
700 → 98 (pegged→reference) → ×2 → 196. -/
theorem oracle_conversion_formula_witness :
    testChain.latestAnswer = .ok 14000000 ∧
    (0 : ℤ) ≤ parseEther ⟨700, 1⟩ ∧
    (handleOracle testEnv [] testChain 1234
        (payReq testEnv.API_KEY "0xDEST" ⟨700, 1⟩ ⟨0, 1⟩ "order-2")).2.transfers =
      [("0xDEST", 196 * 10 ^ 18)] := by
  refine ⟨rfl, by decide, ?_⟩
  have h := oracle_conversion_formula testEnv [] testChain 1234 "0xDEST"
    ⟨700, 1⟩ "order-2" (2000000 * 10 ^ 18) (1000000 * 10 ^ 18) 0 "0xaLx"
    14000000 (2000000 * 10 ^ 18) (1000000 * 10 ^ 18) "0xTXHASH"
    (by decide) (by decide) (by decide) (by decide) (by decide)
    rfl rfl rfl (by decide) (by decide) (by decide)
    rfl (by decide) (by decide)
  exact h.1.trans (by decide)

/-- **C5.** In both modes the offset is applied last: the amount handed
to the transfer call is the pre-offset conversion result — the
reserve-ratio quotient in the direct worker, the chained
rate-then-reserve-ratio quotient in the oracle worker — multiplied by
`offsetMultiplier = BigInt(Math.floor((1 + offset/100) * 10000))` — the
multiplier computed through the binary64 floating-point intermediate —
then floor-divided by 10000. -/
theorem offset_applied_last (env : Env) (db : Store) (chain : ChainState)
    (now : ℕ) (addr : String) (rwa off : Frac) (ord : String)
    (r0 r1 ts : ℕ) (t0 : String) (ans : ℤ) (a u : ℕ) (tx : String)
    (hA : env.API_KEY ≠ "") (haddr : addr ≠ "") (hrwa : rwa.n ≠ 0)
    (hord : ord ≠ "") (hdb : kvGet db ord = none)
    (hg : chain.getReserves = .ok (r0, r1, ts)) (ht : chain.token0 = .ok t0)
    (hans : chain.latestAnswer = .ok ans)
    (hres : resolveReserves t0 env.ALX_CONTRACT_ADDRESS r0 r1 = (a, u))
    (ha0 : a ≠ 0) (hu0 : u ≠ 0) (htx : chain.transfer = .ok tx) :
    (handleDirect env db chain now
        (payReq env.API_KEY addr rwa off ord)).2.transfers =
      [(addr, Int.tdiv
        (Int.tdiv (parseEther rwa * a) u * offsetMultiplier off) 10000)] ∧
    (handleOracle env db chain now
        (payReq env.API_KEY addr rwa off ord)).2.transfers =
      [(addr, Int.tdiv
        (Int.tdiv (Int.tdiv (parseEther rwa * ans) 100000000 * a) u *
          offsetMultiplier off) 10000)] := by
  constructor
  · rw [payReq, handleDirect_routes_pay env db chain now _ _ hA]
    simp [payDirect, haddr, hrwa, hord, hdb, hg, ht, hres, ha0, hu0, htx]
  · rw [payReq, handleOracle_routes_pay env db chain now _ _ hA]
    simp [payOracle, haddr, hrwa, hord, hdb, hg, ht, hans, hres, ha0, hu0, htx]

/-- **C5 witness.** Offset = +10.00 in both modes: the float-derived
multiplier is 11000; the direct worker (inputs of the precision test)
submits exactly 220×10¹⁸, and the oracle worker (inputs of the
oracle-mode test, pre-offset amount 196×10¹⁸) submits exactly
215.6×10¹⁸. -/
theorem offset_applied_last_witness :
    offsetMultiplier ⟨10, 1⟩ = 11000 ∧
    (handleDirect testEnv [] testChain 1234
        (payReq testEnv.API_KEY "0xDEST" ⟨100, 1⟩ ⟨10, 1⟩ "order-3")).2.transfers =
      [("0xDEST", 220 * 10 ^ 18)] ∧
    (handleOracle testEnv [] testChain 1234
        (payReq testEnv.API_KEY "0xDEST" ⟨700, 1⟩ ⟨10, 1⟩ "order-6")).2.transfers =
      [("0xDEST", 2156 * 10 ^ 17)] := by
  refine ⟨by decide, ?_, ?_⟩
  · have h := offset_applied_last testEnv [] testChain 1234 "0xDEST"
      ⟨100, 1⟩ ⟨10, 1⟩ "order-3" (2000000 * 10 ^ 18) (1000000 * 10 ^ 18) 0
      "0xaLx" 14000000 (2000000 * 10 ^ 18) (1000000 * 10 ^ 18) "0xTXHASH"
      (by decide) (by decide) (by decide) (by decide) (by decide)
      rfl rfl rfl (by decide) (by decide) (by decide) rfl
    exact h.1.trans (by decide)
  · have h := offset_applied_last testEnv [] testChain 1234 "0xDEST"
      ⟨700, 1⟩ ⟨10, 1⟩ "order-6" (2000000 * 10 ^ 18) (1000000 * 10 ^ 18) 0
      "0xaLx" 14000000 (2000000 * 10 ^ 18) (1000000 * 10 ^ 18) "0xTXHASH"
      (by decide) (by decide) (by decide) (by decide) (by decide)
      rfl rfl rfl (by decide) (by decide) (by decide) rfl
    exact h.2.trans (by decide)

/-- **C6.** The claim (and the specification) requires offsets below
−100% to be rejected with an `InvalidOffset` validation error before the
Conversion Engine runs, so that no transfer submission is attempted with
the resulting negative multiplier.  Neither worker contains any offset
validation: evaluating the direct worker at offset −150 on a validated,
fresh order, the float-derived multiplier is −5000 and the pipeline hands
a transfer of −100×10¹⁸ to the wallet client.  When the chain layer
rejects the negative amount (as viem's uint256 encoding does) the caller
sees a generic 500, not a 400/`InvalidOffset`; were the submission
accepted, the worker would even record the order as settled.  The oracle
worker behaves identically (−98×10¹⁸ for `rwa_amount = 700`). -/
theorem invalid_offset_missing_validation :
    offsetMultiplier ⟨-150, 1⟩ = -5000 ∧
    handleDirect testEnv []
      ⟨.ok (2000000 * 10 ^ 18, 1000000 * 10 ^ 18, 0), .ok "0xaLx",
       .ok 14000000, .error "IntegerOutOfRangeError"⟩ 1234
      (payReq testEnv.API_KEY "0xDEST" ⟨100, 1⟩ ⟨-150, 1⟩ "order-4") =
      (⟨500, .errorWithStack "IntegerOutOfRangeError"⟩,
       ⟨["order-4"], [], ["getReserves", "token0"],
        [("0xDEST", -100 * 10 ^ 18)]⟩) ∧
    handleDirect testEnv [] testChain 1234
      (payReq testEnv.API_KEY "0xDEST" ⟨100, 1⟩ ⟨-150, 1⟩ "order-4") =
      (⟨200, .success ⟨"success", "0xTXHASH", "-100", ⟨100, 1⟩, 1234⟩⟩,
       ⟨["order-4"],
        [("order-4", ⟨"success", "0xTXHASH", "-100", ⟨100, 1⟩, 1234⟩)],
        ["getReserves", "token0"],
        [("0xDEST", -100 * 10 ^ 18)]⟩) ∧
    (handleOracle testEnv [] testChain 1234
      (payReq testEnv.API_KEY "0xDEST" ⟨700, 1⟩ ⟨-150, 1⟩ "order-5")).2.transfers =
      [("0xDEST", -98 * 10 ^ 18)] := by
  refine ⟨by decide, by decide, by decide, by decide⟩

/-- **C7.** When any pipeline stage of a validated, non-duplicate
`POST /pay` fails — the pricing reads (`getReserves`/`token0`) reject,
the conversion throws (empty resolved settlement reserve, or zero
reference reserve making the `BigInt` division throw), or the transfer
submission rejects — the direct worker returns HTTP 500 and performs no
store write, so the order key stays absent and an identical retry would
attempt settlement again. -/
theorem pipeline_fault_no_ledger_write (env : Env) (db : Store)
    (chain : ChainState) (now : ℕ) (addr : String) (rwa off : Frac)
    (ord : String)
    (hA : env.API_KEY ≠ "") (haddr : addr ≠ "") (hrwa : rwa.n ≠ 0)
    (hord : ord ≠ "") (hdb : kvGet db ord = none)
    (hfail :
      (∃ e, chain.getReserves = .error e) ∨
      (∃ e, chain.token0 = .error e) ∨
      (∃ r0 r1 ts t0, chain.getReserves = .ok (r0, r1, ts) ∧
        chain.token0 = .ok t0 ∧
        ((resolveReserves t0 env.ALX_CONTRACT_ADDRESS r0 r1).1 = 0 ∨
         (resolveReserves t0 env.ALX_CONTRACT_ADDRESS r0 r1).2 = 0)) ∨
      (∃ e, chain.transfer = .error e)) :
    (handleDirect env db chain now
        (payReq env.API_KEY addr rwa off ord)).1.status = 500 ∧
    (handleDirect env db chain now
        (payReq env.API_KEY addr rwa off ord)).2.kvWrites = [] := by
  rw [payReq, handleDirect_routes_pay env db chain now _ _ hA]
  rcases hfail with ⟨e, he⟩ | ⟨e, he⟩ | ⟨r0, r1, ts, t0, hg, ht, hz⟩ | ⟨e, he⟩
  · constructor <;> simp [payDirect, noEffects, haddr, hrwa, hord, hdb, he]
  · rcases hg : chain.getReserves with eg | ⟨r0, r1, ts⟩
    · constructor <;> simp [payDirect, noEffects, haddr, hrwa, hord, hdb, hg]
    · constructor <;> simp [payDirect, noEffects, haddr, hrwa, hord, hdb, hg, he]
  · rcases hz with hz | hz
    · constructor <;> simp [payDirect, noEffects, haddr, hrwa, hord, hdb, hg, ht, hz]
    · by_cases ha0 : (resolveReserves t0 env.ALX_CONTRACT_ADDRESS r0 r1).1 = 0
      · constructor <;> simp [payDirect, noEffects, haddr, hrwa, hord, hdb, hg, ht, ha0]
      · constructor <;> simp [payDirect, noEffects, haddr, hrwa, hord, hdb, hg, ht, ha0, hz]
  · rcases hg : chain.getReserves with eg | ⟨r0, r1, ts⟩
    · constructor <;> simp [payDirect, noEffects, haddr, hrwa, hord, hdb, hg]
    · rcases ht : chain.token0 with et | t0
      · constructor <;> simp [payDirect, noEffects, haddr, hrwa, hord, hdb, hg, ht]
      · by_cases ha0 : (resolveReserves t0 env.ALX_CONTRACT_ADDRESS r0 r1).1 = 0
        · constructor <;> simp [payDirect, noEffects, haddr, hrwa, hord, hdb, hg, ht, ha0]
        · by_cases hu0 : (resolveReserves t0 env.ALX_CONTRACT_ADDRESS r0 r1).2 = 0
          · constructor <;>
              simp [payDirect, noEffects, haddr, hrwa, hord, hdb, hg, ht, ha0, hu0]
          · constructor <;>
              simp [payDirect, noEffects, haddr, hrwa, hord, hdb, hg, ht, ha0, hu0, he]

/-- **C7 witness.** A rejected transfer submission (the network refuses
the signed call) yields HTTP 500 and leaves the store without the order
key. -/
theorem pipeline_fault_no_ledger_write_witness :
    (ChainState.mk (.ok (2000000 * 10 ^ 18, 1000000 * 10 ^ 18, 0)) (.ok "0xalx")
        (.ok 14000000) (.error "insufficient balance")).transfer =
      .error "insufficient balance" ∧
    (handleDirect testEnv []
        ⟨.ok (2000000 * 10 ^ 18, 1000000 * 10 ^ 18, 0), .ok "0xalx",
         .ok 14000000, .error "insufficient balance"⟩ 1234
        (payReq testEnv.API_KEY "0xDEST" ⟨100, 1⟩ ⟨0, 1⟩ "order-7")).1.status
      = 500 ∧
    (handleDirect testEnv []
        ⟨.ok (2000000 * 10 ^ 18, 1000000 * 10 ^ 18, 0), .ok "0xalx",
         .ok 14000000, .error "insufficient balance"⟩ 1234
        (payReq testEnv.API_KEY "0xDEST" ⟨100, 1⟩ ⟨0, 1⟩ "order-7")).2.kvWrites
      = [] := by
  have h := pipeline_fault_no_ledger_write testEnv []
    ⟨.ok (2000000 * 10 ^ 18, 1000000 * 10 ^ 18, 0), .ok "0xalx",
     .ok 14000000, .error "insufficient balance"⟩ 1234
    "0xDEST" ⟨100, 1⟩ ⟨0, 1⟩ "order-7"
    (by decide) (by decide) (by decide) (by decide) (by decide)
    (Or.inr (Or.inr (Or.inr ⟨"insufficient balance", rfl⟩)))
  exact ⟨rfl, h.1, h.2⟩

end RwaPayment
